import Mathlib

/-!
Verification development for the `anvil` repository examples:

* `studio_tools/__init__.py` — a Blender addon with a scene-validation
  operator (`STUDIO_OT_validate_scene.execute`) and two file-path
  operators (`STUDIO_OT_open_in_explorer.execute`,
  `STUDIO_OT_copy_path.execute`).
* `studio/__init__.py` — three environment-variable accessors
  (`get_config_path`, `get_project_root`, `get_user`).

The Python code is embedded shallowly: Blender's `bpy.data.objects` is a
list of scene objects, `self.report` calls are collected into a list of
report records, the operator return value (`\x7bFINISHED\x7d` or
`\x7bCANCELLED\x7d`) is a two-value inductive, subprocess invocations are
recorded as argument vectors, and `os.environ` is a snapshot structure of
optional strings.
-/

namespace Anvil

/-- A single quote character as a string, used to build report messages. -/
def sq : String := "\x27"

/-- Scene object as seen by the validator: `obj.name` (string),
`obj.type` (string enum such as `MESH`), `obj.scale` (a triple of
numbers; Blender stores floats, modelled as exact rationals — the
constants 1 and 2 compared against are exactly representable). -/
structure SceneObject where
  name : String
  type : String
  scale : ℚ × ℚ × ℚ
deriving DecidableEq, Repr

/-- Python `str.startswith`, modelled on the character list. -/
def startswith (s pre : String) : Bool :=
  pre.data.isPrefixOf s.data

/-- Report levels used by the addon: `INFO`, `WARNING`, `ERROR`. -/
structure Report where
  level : String
  message : String
deriving DecidableEq, Repr

/-- Blender operator return value: `\x7bFINISHED\x7d` or `\x7bCANCELLED\x7d`. -/
inductive OpResult where
  | FINISHED
  | CANCELLED
deriving DecidableEq, Repr

/-- The message `Object '<name>' has default name`. -/
def defaultNameMsg (name : String) : String :=
  "Object " ++ sq ++ name ++ sq ++ " has default name"

/-- The message `Object '<name>' has unapplied scale`. -/
def unappliedScaleMsg (name : String) : String :=
  "Object " ++ sq ++ name ++ sq ++ " has unapplied scale"

/-- First pass of `STUDIO_OT_validate_scene.execute` (lines 72-74):
for each object whose name starts with `Cube` or `Sphere`, append a
default-name warning. -/
def defaultNamePass (objs : List SceneObject) : List String :=
  objs.foldl
    (fun ws obj =>
      if startswith obj.name "Cube" || startswith obj.name "Sphere" then
        ws ++ [defaultNameMsg obj.name]
      else ws)
    []

/-- Second pass of `STUDIO_OT_validate_scene.execute` (lines 77-80):
for each object of type `MESH` whose scale differs from `(1, 1, 1)`,
append an unapplied-scale warning onto the accumulated warnings. -/
def unappliedScalePass (warnings : List String) (objs : List SceneObject) :
    List String :=
  objs.foldl
    (fun ws obj =>
      if obj.type = "MESH" then
        if obj.scale ≠ ((1 : ℚ), (1 : ℚ), (1 : ℚ)) then
          ws ++ [unappliedScaleMsg obj.name]
        else ws
      else ws)
    warnings

/-- The `warnings` list as built by `STUDIO_OT_validate_scene.execute`:
the default-name pass followed by the unapplied-scale pass. -/
def validate_scene_warnings (objs : List SceneObject) : List String :=
  unappliedScalePass (defaultNamePass objs) objs

/-- The `errors` list of `STUDIO_OT_validate_scene.execute` (line 68):
initialised empty and never appended to. -/
def validate_scene_errors (_objs : List SceneObject) : List String :=
  []

/-- `STUDIO_OT_validate_scene.execute` (lines 67-93): build `errors` and
`warnings`, then report errors and cancel, or report warnings, or report
the single success message; returns the list of `self.report` calls in
order together with the operator result. -/
def validate_scene_execute (objs : List SceneObject) :
    List Report × OpResult :=
  let errors := validate_scene_errors objs
  let warnings := validate_scene_warnings objs
  if errors ≠ [] then
    (errors.map (fun e => ⟨"ERROR", e⟩), OpResult.CANCELLED)
  else if warnings ≠ [] then
    (warnings.map (fun w => ⟨"WARNING", w⟩), OpResult.FINISHED)
  else
    ([⟨"INFO", "Scene validation passed!"⟩], OpResult.FINISHED)

/-- The Boolean guard of the default-name pass. -/
def isDefaultName (o : SceneObject) : Bool :=
  startswith o.name "Cube" || startswith o.name "Sphere"

/-- The Boolean guard of the unapplied-scale pass. -/
def isUnappliedScale (o : SceneObject) : Bool :=
  decide (o.type = "MESH") && decide (o.scale ≠ ((1 : ℚ), (1 : ℚ), (1 : ℚ)))

theorem foldl_append_pass {α : Type} (p : α → Bool) (f : α → String)
    (g : List String → α → List String)
    (hg : ∀ ws o, g ws o = if p o then ws ++ [f o] else ws) :
    ∀ (l : List α) (acc : List String),
      l.foldl g acc = acc ++ (l.filter p).map f := by
  intro l
  induction l with
  | nil => intro acc; simp
  | cons o rest ih =>
    intro acc
    rw [List.foldl_cons, hg]
    cases hp : p o
    · simp [List.filter_cons, hp, ih]
    · simp [List.filter_cons, hp, ih]

theorem defaultNamePass_eq (objs : List SceneObject) :
    defaultNamePass objs =
      (objs.filter isDefaultName).map (fun o => defaultNameMsg o.name) := by
  have h := foldl_append_pass isDefaultName (fun o => defaultNameMsg o.name)
    (fun ws obj =>
      if startswith obj.name "Cube" || startswith obj.name "Sphere" then
        ws ++ [defaultNameMsg obj.name]
      else ws)
    (fun ws o => rfl) objs []
  simpa [defaultNamePass] using h

theorem unappliedScalePass_eq (warnings : List String) (objs : List SceneObject) :
    unappliedScalePass warnings objs =
      warnings ++ (objs.filter isUnappliedScale).map (fun o => unappliedScaleMsg o.name) := by
  have h := foldl_append_pass isUnappliedScale (fun o => unappliedScaleMsg o.name)
    (fun ws obj =>
      if obj.type = "MESH" then
        if obj.scale ≠ ((1 : ℚ), (1 : ℚ), (1 : ℚ)) then
          ws ++ [unappliedScaleMsg obj.name]
        else ws
      else ws)
    (fun ws o => by
      by_cases h1 : o.type = "MESH" <;>
        by_cases h2 : o.scale = ((1 : ℚ), (1 : ℚ), (1 : ℚ)) <;>
          simp [isUnappliedScale, h1, h2])
    objs warnings
  simpa [unappliedScalePass] using h

/-- Characterisation of the full `warnings` list: default-name messages
in iteration order, then unapplied-scale messages in iteration order. -/
theorem validate_scene_warnings_eq (objs : List SceneObject) :
    validate_scene_warnings objs =
      (objs.filter isDefaultName).map (fun o => defaultNameMsg o.name)
        ++ (objs.filter isUnappliedScale).map (fun o => unappliedScaleMsg o.name) := by
  rw [validate_scene_warnings, unappliedScalePass_eq, defaultNamePass_eq]

theorem defaultNameMsg_tail (m : String) :
    (defaultNameMsg m).data.reverse.take 2 = ['e', 'm'] := by
  show ((("Object " ++ sq ++ m ++ sq) ++ " has default name").data).reverse.take 2 = _
  rw [String.data_append, List.reverse_append,
    List.take_append_of_le_length (by decide)]
  decide

theorem unappliedScaleMsg_tail (n : String) :
    (unappliedScaleMsg n).data.reverse.take 2 = ['e', 'l'] := by
  show ((("Object " ++ sq ++ n ++ sq) ++ " has unapplied scale").data).reverse.take 2 = _
  rw [String.data_append, List.reverse_append,
    List.take_append_of_le_length (by decide)]
  decide

theorem defaultNameMsg_ne_unappliedScaleMsg (m n : String) :
    defaultNameMsg m ≠ unappliedScaleMsg n := by
  intro h
  have h2 : (defaultNameMsg m).data.reverse.take 2
      = (unappliedScaleMsg n).data.reverse.take 2 := by rw [h]
  rw [defaultNameMsg_tail, unappliedScaleMsg_tail] at h2
  exact absurd h2 (by decide)

theorem unappliedScaleMsg_inj {m n : String}
    (h : unappliedScaleMsg m = unappliedScaleMsg n) : m = n := by
  have hd := congrArg String.data h
  simp only [unappliedScaleMsg, String.data_append, List.append_assoc] at hd
  have h1 := List.append_cancel_left (List.append_cancel_left hd)
  exact String.ext (List.append_cancel_right h1)

/-- C1: a scene with no default-named objects and no mesh with unapplied
scale validates with empty errors and warnings, exactly one
`INFO "Scene validation passed!"` report, and result `FINISHED`. -/
theorem validate_scene_clean_passes (objs : List SceneObject)
    (hname : ∀ o ∈ objs, startswith o.name "Cube" = false ∧
      startswith o.name "Sphere" = false)
    (hscale : ∀ o ∈ objs, o.type = "MESH" → o.scale = ((1 : ℚ), 1, 1)) :
    validate_scene_errors objs = [] ∧ validate_scene_warnings objs = [] ∧
      validate_scene_execute objs =
        ([⟨"INFO", "Scene validation passed!"⟩], OpResult.FINISHED) := by
  have h1 : objs.filter isDefaultName = [] :=
    List.filter_eq_nil_iff.mpr fun o ho => by
      simp [isDefaultName, (hname o ho).1, (hname o ho).2]
  have h2 : objs.filter isUnappliedScale = [] :=
    List.filter_eq_nil_iff.mpr fun o ho => by
      by_cases ht : o.type = "MESH"
      · simp [isUnappliedScale, ht, hscale o ho ht]
      · simp [isUnappliedScale, ht]
  have hw : validate_scene_warnings objs = [] := by
    rw [validate_scene_warnings_eq, h1, h2]
    simp
  exact ⟨rfl, hw, by simp [validate_scene_execute, validate_scene_errors, hw]⟩

theorem validate_scene_clean_passes_witness :
    validate_scene_errors [⟨"hero", "MESH", (1, 1, 1)⟩] = [] ∧
      validate_scene_warnings [⟨"hero", "MESH", (1, 1, 1)⟩] = [] ∧
      validate_scene_execute [⟨"hero", "MESH", (1, 1, 1)⟩] =
        ([⟨"INFO", "Scene validation passed!"⟩], OpResult.FINISHED) :=
  validate_scene_clean_passes [⟨"hero", "MESH", (1, 1, 1)⟩]
    (by decide) (by decide)

/-- C2: the warnings consist of the default-name messages of the
default-named objects in iteration order, followed by the
unapplied-scale messages of the bad-scale meshes in iteration order. -/
theorem validate_scene_warnings_order (objs : List SceneObject) :
    validate_scene_warnings objs =
      (objs.filter isDefaultName).map (fun o => defaultNameMsg o.name)
        ++ (objs.filter isUnappliedScale).map (fun o => unappliedScaleMsg o.name) :=
  validate_scene_warnings_eq objs

/-- C3: the errors list is always empty, so the validator never reports
an `ERROR`-level message and always returns `FINISHED`. -/
theorem validate_scene_never_cancelled (objs : List SceneObject) :
    validate_scene_errors objs = [] ∧
      (validate_scene_execute objs).2 = OpResult.FINISHED ∧
      ∀ r ∈ (validate_scene_execute objs).1, r.level ≠ "ERROR" := by
  refine ⟨rfl, ?_, ?_⟩
  · by_cases hw : validate_scene_warnings objs = [] <;>
      simp [validate_scene_execute, validate_scene_errors, hw]
  · intro r hr
    by_cases hw : validate_scene_warnings objs = [] <;>
      simp [validate_scene_execute, validate_scene_errors, hw] at hr
    · rw [hr]
      simp
    · rcases hr with ⟨w, _, hrw⟩
      rw [← hrw]
      simp

/-- C4: a mesh with scale `(2,1,1)` always yields an unapplied-scale
warning for its name; a name borne only by non-mesh objects never
appears in an unapplied-scale warning, whatever the scales are. -/
theorem validate_scene_scale_warning (objs : List SceneObject) :
    (∀ o ∈ objs, o.type = "MESH" → o.scale = ((2 : ℚ), 1, 1) →
        unappliedScaleMsg o.name ∈ validate_scene_warnings objs) ∧
    (∀ n : String, (∀ o ∈ objs, o.name = n → o.type ≠ "MESH") →
        unappliedScaleMsg n ∉ validate_scene_warnings objs) := by
  constructor
  · intro o ho ht hs
    rw [validate_scene_warnings_eq]
    refine List.mem_append_right _ (List.mem_map.mpr ⟨o, List.mem_filter.mpr ⟨ho, ?_⟩, rfl⟩)
    simp [isUnappliedScale, ht, hs]
  · intro n hn hmem
    rw [validate_scene_warnings_eq] at hmem
    rcases List.mem_append.mp hmem with h | h
    · rcases List.mem_map.mp h with ⟨o, _, heq⟩
      exact defaultNameMsg_ne_unappliedScaleMsg o.name n heq
    · rcases List.mem_map.mp h with ⟨o, hmemf, heq⟩
      rcases List.mem_filter.mp hmemf with ⟨ho, hp⟩
      have ht : o.type = "MESH" := by
        simp [isUnappliedScale] at hp
        exact hp.1
      exact hn o ho (unappliedScaleMsg_inj heq) ht

theorem validate_scene_scale_warning_witness :
    unappliedScaleMsg "hero" ∈
        validate_scene_warnings [⟨"hero", "MESH", (2, 1, 1)⟩, ⟨"cam", "CAMERA", (2, 1, 1)⟩] ∧
      unappliedScaleMsg "cam" ∉
        validate_scene_warnings [⟨"hero", "MESH", (2, 1, 1)⟩, ⟨"cam", "CAMERA", (2, 1, 1)⟩] :=
  ⟨(validate_scene_scale_warning _).1 ⟨"hero", "MESH", (2, 1, 1)⟩ (by decide) rfl (by decide),
    (validate_scene_scale_warning _).2 "cam" (by decide)⟩

/-- `os.path.dirname` in its POSIX form (`posixpath.dirname`): the part
of the path up to the last `/`, with trailing slashes stripped unless
the head is empty or all slashes. -/
def dirname (p : String) : String :=
  let head := (p.data.reverse.dropWhile (fun c => c != '/')).reverse
  if !head.isEmpty && head.any (fun c => c != '/') then
    String.mk ((head.reverse.dropWhile (fun c => c == '/')).reverse)
  else
    String.mk head

/-- Outcome of `STUDIO_OT_open_in_explorer.execute`: the `self.report`
calls, the `subprocess.run` argument vectors in order, and the operator
result. -/
structure ExplorerOutcome where
  reports : List Report
  subprocessCalls : List (List String)
  result : OpResult
deriving DecidableEq, Repr

/-- The file-manager-reveal command chosen by platform in
`STUDIO_OT_open_in_explorer.execute` (lines 114-119). -/
def explorerCmd (platform : String) : String :=
  if platform = "darwin" then "open"
  else if platform = "win32" then "explorer"
  else "xdg-open"

/-- `STUDIO_OT_open_in_explorer.execute` (lines 102-121): `platform` is
`sys.platform`, `filepath` is `bpy.data.filepath` (empty when the file
was never saved), and `exitCode` is the returncode of the spawned
subprocess, which the code never inspects. -/
def open_in_explorer_execute (platform : String) (_exitCode : Int)
    (filepath : String) : ExplorerOutcome :=
  if filepath = "" then
    ⟨[⟨"WARNING", "File not saved yet"⟩], [], OpResult.CANCELLED⟩
  else
    let dirpath := dirname filepath
    let call :=
      if platform = "darwin" then ["open", dirpath]
      else if platform = "win32" then ["explorer", dirpath]
      else ["xdg-open", dirpath]
    ⟨[], [call], OpResult.FINISHED⟩

/-- Outcome of `STUDIO_OT_copy_path.execute`: the `self.report` calls,
the final clipboard contents, and the operator result. -/
structure CopyPathOutcome where
  reports : List Report
  clipboard : String
  result : OpResult
deriving DecidableEq, Repr

/-- `STUDIO_OT_copy_path.execute` (lines 130-138): `filepath` is
`bpy.data.filepath`, `clipboard` the clipboard contents before the
call. -/
def copy_path_execute (filepath : String) (clipboard : String) :
    CopyPathOutcome :=
  if filepath = "" then
    ⟨[⟨"WARNING", "File not saved yet"⟩], clipboard, OpResult.CANCELLED⟩
  else
    ⟨[⟨"INFO", "Copied: " ++ filepath⟩], filepath, OpResult.FINISHED⟩

/-- C5: with no saved file path, both file-path operators report the
warning `File not saved yet` and cancel; no subprocess is invoked and
the clipboard is left unchanged. -/
theorem no_saved_file_cancels (platform : String) (exitCode : Int)
    (clipboard filepath : String) (h : filepath = "") :
    open_in_explorer_execute platform exitCode filepath =
      ⟨[⟨"WARNING", "File not saved yet"⟩], [], OpResult.CANCELLED⟩ ∧
    copy_path_execute filepath clipboard =
      ⟨[⟨"WARNING", "File not saved yet"⟩], clipboard, OpResult.CANCELLED⟩ := by
  subst h
  exact ⟨rfl, rfl⟩

theorem no_saved_file_cancels_witness :
    open_in_explorer_execute "linux" 0 "" =
      ⟨[⟨"WARNING", "File not saved yet"⟩], [], OpResult.CANCELLED⟩ ∧
    copy_path_execute "" "old clipboard" =
      ⟨[⟨"WARNING", "File not saved yet"⟩], "old clipboard", OpResult.CANCELLED⟩ :=
  no_saved_file_cancels "linux" 0 "old clipboard" "" rfl

/-- C6: with a saved file path, `open_in_explorer` spawns exactly the
one platform-selected reveal command with the containing directory as
argument, reports nothing, and finishes regardless of the subprocess
exit code. -/
theorem open_in_explorer_saved (platform : String) (exitCode : Int)
    (filepath : String) (h : filepath ≠ "") :
    open_in_explorer_execute platform exitCode filepath =
      ⟨[], [[explorerCmd platform, dirname filepath]], OpResult.FINISHED⟩ := by
  rw [open_in_explorer_execute, if_neg (by simpa using h)]
  by_cases h1 : platform = "darwin"
  · simp [explorerCmd, h1]
  · by_cases h2 : platform = "win32" <;> simp [explorerCmd, h1, h2]

theorem open_in_explorer_saved_witness :
    open_in_explorer_execute "darwin" 1 "/tmp/shots/a.blend" =
      ⟨[], [["open", dirname "/tmp/shots/a.blend"]], OpResult.FINISHED⟩ ∧
    dirname "/tmp/shots/a.blend" = "/tmp/shots" :=
  ⟨open_in_explorer_saved "darwin" 1 "/tmp/shots/a.blend" (by decide), by decide⟩

/-- Snapshot of the environment variables read by `studio/__init__.py`:
each field is `some value` when the variable is set (possibly to the
empty string) and `none` when unset. -/
structure Env where
  STUDIO_CONFIG : Option String
  STUDIO_PROJECT_ROOT : Option String
  USER : Option String
  USERNAME : Option String
deriving DecidableEq, Repr

/-- `os.environ.get(name, dflt)`: the variable's value when set, the
default otherwise (a set-but-empty variable is returned as `""`). -/
def environ_get (v : Option String) (dflt : String) : String :=
  v.getD dflt

/-- `get_project_root` (lines 21-25): the walrus-guarded read — a set,
non-empty (truthy) `STUDIO_PROJECT_ROOT` is returned; otherwise the
current working directory `cwd` (`Path.cwd()`). -/
def get_project_root (env : Env) (cwd : String) : String :=
  match env.STUDIO_PROJECT_ROOT with
  | some root => if root ≠ "" then root else cwd
  | none => cwd

/-- `get_user` (lines 28-30):
`os.environ.get("USER", os.environ.get("USERNAME", "unknown"))`. -/
def get_user (env : Env) : String :=
  environ_get env.USER (environ_get env.USERNAME "unknown")

/-- C7: `get_user` returns `USER` when set, else `USERNAME` when set,
else the literal `"unknown"`. -/
theorem get_user_chain (env : Env) :
    (∀ u, env.USER = some u → get_user env = u) ∧
    (env.USER = none → ∀ n, env.USERNAME = some n → get_user env = n) ∧
    (env.USER = none → env.USERNAME = none → get_user env = "unknown") := by
  refine ⟨fun u hu => ?_, fun hu n hn => ?_, fun hu hn => ?_⟩ <;>
    simp [get_user, environ_get, hu]
  · rw [hn]
    rfl
  · rw [hn]
    rfl

theorem get_user_chain_witness :
    get_user ⟨none, none, some "alice", some "bob"⟩ = "alice" ∧
    get_user ⟨none, none, none, some "bob"⟩ = "bob" ∧
    get_user ⟨none, none, none, none⟩ = "unknown" :=
  ⟨(get_user_chain ⟨none, none, some "alice", some "bob"⟩).1 "alice" rfl,
    (get_user_chain ⟨none, none, none, some "bob"⟩).2.1 rfl "bob" rfl,
    (get_user_chain ⟨none, none, none, none⟩).2.2 rfl rfl⟩

/-- C8: `get_project_root` returns the current working directory when
`STUDIO_PROJECT_ROOT` is unset or empty, and the variable's literal
value otherwise. -/
theorem get_project_root_spec (env : Env) (cwd : String) :
    ((env.STUDIO_PROJECT_ROOT = none ∨ env.STUDIO_PROJECT_ROOT = some "") →
      get_project_root env cwd = cwd) ∧
    (∀ root, env.STUDIO_PROJECT_ROOT = some root → root ≠ "" →
      get_project_root env cwd = root) := by
  constructor
  · rintro (h | h) <;> simp [get_project_root, h]
  · intro root h hne
    simp [get_project_root, h, hne]

theorem get_project_root_spec_witness :
    get_project_root ⟨none, none, none, none⟩ "/cwd" = "/cwd" ∧
    get_project_root ⟨none, some "", none, none⟩ "/cwd" = "/cwd" ∧
    get_project_root ⟨none, some "/proj", none, none⟩ "/cwd" = "/proj" :=
  ⟨(get_project_root_spec ⟨none, none, none, none⟩ "/cwd").1 (Or.inl rfl),
    (get_project_root_spec ⟨none, some "", none, none⟩ "/cwd").1 (Or.inr rfl),
    (get_project_root_spec ⟨none, some "/proj", none, none⟩ "/cwd").2 "/proj" rfl (by decide)⟩

/-- C10: a set-but-empty `USER` is still returned by `get_user` (even
with a non-empty `USERNAME` set), while a set-but-empty
`STUDIO_PROJECT_ROOT` is treated as absent by `get_project_root`. -/
theorem set_but_empty_contrast (env : Env) (cwd : String)
    (hu : env.USER = some "") (hr : env.STUDIO_PROJECT_ROOT = some "") :
    get_user env = "" ∧ get_project_root env cwd = cwd := by
  constructor
  · simp [get_user, environ_get, hu]
  · simp [get_project_root, hr]

theorem set_but_empty_contrast_witness :
    get_user ⟨none, some "", some "", some "bob"⟩ = "" ∧
    get_project_root ⟨none, some "", some "", some "bob"⟩ "/cwd" = "/cwd" :=
  set_but_empty_contrast ⟨none, some "", some "", some "bob"⟩ "/cwd" rfl rfl

end Anvil
